import Mathlib

/-!
Shallow embedding of `src/assistants/migrate.py` (OpenAI → Azure OpenAI
assistant migration).  The two HTTP clients are modelled as an explicit
environment `Env` of oracles returning `Except String _`; Python's
side effects (temporary-file writes, API calls) are threaded through an
explicit state `St` carrying a temp-dir file system and an event trace.
Python truthiness on optional strings (`if not x`, `x or y`) is modelled
explicitly, since the code relies on it.
-/

namespace OA2Az

/-- `Except` values with decidable components have decidable equality
    (needed to evaluate the model on concrete inputs with `decide`). -/
instance exceptDecEq {ε α : Type} [DecidableEq ε] [DecidableEq α] :
    DecidableEq (Except ε α) := fun x y =>
  match x, y with
  | Except.ok a, Except.ok b =>
    if h : a = b then isTrue (by rw [h])
    else isFalse (by intro hh; cases hh; exact h rfl)
  | Except.error a, Except.error b =>
    if h : a = b then isTrue (by rw [h])
    else isFalse (by intro hh; cases hh; exact h rfl)
  | Except.ok _, Except.error _ => isFalse (by intro hh; cases hh)
  | Except.error _, Except.ok _ => isFalse (by intro hh; cases hh)

/-- Python truthiness of an `Optional[str]`: `None` and `""` are falsy. -/
def truthyOptStr : Option String → Bool
  | none => false
  | some s => s != ""

/-- Python `a or b` on `Optional[str]` values. -/
def pyOrStr (a b : Option String) : Option String :=
  match a with
  | some s => if s != "" then some s else b
  | none => b

/-- `needle` is a prefix of `hay` (on character lists). -/
def charsPre : List Char → List Char → Bool
  | [], _ => true
  | _ :: _, [] => false
  | a :: as, b :: bs => a == b && charsPre as bs

/-- `needle` occurs as a contiguous substring of `hay` (character lists). -/
def charsSub (needle : List Char) : List Char → Bool
  | [] => charsPre needle []
  | b :: bs => charsPre needle (b :: bs) || charsSub needle bs

/-- Python `needle in hay` for strings: contiguous substring test. -/
def containsSubstr (needle hay : String) : Bool :=
  charsSub needle.data hay.data

/-- The literal substring searched for by the model fallback. -/
def gpt4Needle : String := "gpt-4"

/-- The string starts with a `/` (computed on the character list so that
    concrete instances reduce in the kernel). -/
def startsWithSlash (s : String) : Bool :=
  charsPre ['/'] s.data

/-- The string ends with a `/`. -/
def endsWithSlash (s : String) : Bool :=
  match s.data.getLast? with
  | some c => c == '/'
  | none => false

/-- `os.path.join(dir, fn)` for the cases arising here (POSIX). -/
def pathJoin (dir fn : String) : String :=
  if startsWithSlash fn then fn
  else if endsWithSlash dir then dir ++ fn
  else dir ++ "/" ++ fn

/-- File metadata returned by `openai_client.files.retrieve`. -/
structure FileMeta where
  filename : Option String
  deriving DecidableEq

/-- A source assistant object as returned by the OpenAI listing/retrieve. -/
structure AssistantObj where
  id : String
  name : Option String
  instructions : Option String
  model : String
  tools : List String
  file_ids : List String
  deriving DecidableEq

/-- One entry of the `file_details` list: source file id and local path. -/
structure FileDetailEntry where
  id : String
  path : String
  deriving DecidableEq

/-- Values stored in the details dictionary built by `get_assistant_details`. -/
inductive Val where
  | str (s : String)
  | optStr (s : Option String)
  | tools (ts : List String)
  | files (fs : List FileDetailEntry)
  deriving DecidableEq

/-- The Python dict returned by `get_assistant_details`
    (`{}` is the empty list). -/
abbrev Details := List (String × Val)

/-- Python `d.get(k)` on the details dict. -/
def dget (d : Details) (k : String) : Option Val :=
  (d.find? (fun kv => kv.1 = k)).map (fun kv => kv.2)

/-- Coerce a dict value to an optional string (as the create call consumes). -/
def asStr : Option Val → Option String
  | some (Val.str s) => some s
  | some (Val.optStr o) => o
  | _ => none

/-- Python `d.get("tools", [])`. -/
def asTools : Option Val → List String
  | some (Val.tools ts) => ts
  | _ => []

/-- Python `d.get("file_details", [])`. -/
def asFiles : Option Val → List FileDetailEntry
  | some (Val.files fs) => fs
  | _ => []

/-- Observable external calls issued by the migrator. -/
inductive Event where
  | download (fileId : String)
  | upload (path : String)
  | detailFetch (assistantId : String)
  | create (model : String) (fileIds : List String)
  deriving DecidableEq

/-- Threaded state: the temp-dir file system and the call trace. -/
structure St where
  fs : List (String × List Nat)
  events : List Event
  deriving DecidableEq

/-- Initial state: empty temp dir, empty trace. -/
def stInit : St := ⟨[], []⟩

/-- Write bytes to a path (most recent entry shadows older ones). -/
def fsWrite (fs : List (String × List Nat)) (p : String) (b : List Nat) :
    List (String × List Nat) :=
  (p, b) :: fs

/-- Read the current contents at a path. -/
def fsRead (fs : List (String × List Nat)) (p : String) : Option (List Nat) :=
  (fs.find? (fun e => e.1 = p)).map (fun e => e.2)

/-- The external world: both SDK clients' operations as oracles. -/
structure Env where
  tmpdir : String
  listAssistants : Except String (List AssistantObj)
  retrieve : String → Except String AssistantObj
  fileContent : String → Except String (List Nat)
  fileMeta : String → Except String FileMeta
  uploadFile : String → Except String String
  deployments : Except String (List String)
  createAssistant : Option String → Option String → String → List String →
    List String → Except String String

/-- `AssistantMigrator._download_file`: download the bytes, look up the
    metadata filename (`meta.filename or f"{...}.bin"`, so an empty
    filename also falls back), write to the temp dir, return the path.
    Failures propagate to the caller as exceptions. -/
def _download_file (env : Env) (st : St) (fid : String) :
    Except String String × St :=
  let st0 : St := { st with events := st.events ++ [Event.download fid] }
  match env.fileContent fid with
  | Except.error e => (Except.error e, st0)
  | Except.ok bytes =>
    match env.fileMeta fid with
    | Except.error e => (Except.error e, st0)
    | Except.ok meta =>
      let filename :=
        match meta.filename with
        | some s => if s != "" then s else fid ++ ".bin"
        | none => fid ++ ".bin"
      let path := pathJoin env.tmpdir filename
      (Except.ok path, { st0 with fs := fsWrite st0.fs path bytes })

/-- The `for file_id in assistant.file_ids` download loop of
    `get_assistant_details`; the first exception aborts the loop. -/
def downloadFiles (env : Env) : St → List String →
    Except String (List FileDetailEntry) × St
  | st, [] => (Except.ok [], st)
  | st, fid :: rest =>
    let pr := _download_file env st fid
    match pr.1 with
    | Except.error e => (Except.error e, pr.2)
    | Except.ok path =>
      let pr2 := downloadFiles env pr.2 rest
      match pr2.1 with
      | Except.error e => (Except.error e, pr2.2)
      | Except.ok ds => (Except.ok (⟨fid, path⟩ :: ds), pr2.2)

/-- The dict literal returned on success by `get_assistant_details`. -/
def detailsDict (a : AssistantObj) (fds : List FileDetailEntry) : Details :=
  [("id", Val.str a.id), ("name", Val.optStr a.name),
   ("instructions", Val.optStr a.instructions), ("model", Val.str a.model),
   ("tools", Val.tools a.tools), ("file_details", Val.files fds)]

/-- `AssistantMigrator.get_assistant_details`: retrieve the assistant and
    download every attached file; any exception is caught and `{}` is
    returned. -/
def get_assistant_details (env : Env) (st : St) (aid : String) :
    Details × St :=
  let st0 : St := { st with events := st.events ++ [Event.detailFetch aid] }
  match env.retrieve aid with
  | Except.error _ => ([], st0)
  | Except.ok a =>
    let pr := downloadFiles env st0 a.file_ids
    match pr.1 with
    | Except.error _ => ([], pr.2)
    | Except.ok fds => (detailsDict a fds, pr.2)

/-- `AssistantMigrator._upload_file_to_azure`: failures are caught inside
    and surface as `None`. -/
def _upload_file_to_azure (env : Env) (st : St) (path : String) :
    Option String × St :=
  let st0 : St := { st with events := st.events ++ [Event.upload path] }
  match env.uploadFile path with
  | Except.ok fid => (some fid, st0)
  | Except.error _ => (none, st0)

/-- The upload loop of `create_azure_assistant`: a falsy result
    (`None` or `""`) is simply not appended. -/
def uploadLoop (env : Env) : St → List FileDetailEntry →
    List String × St
  | st, [] => ([], st)
  | st, fd :: rest =>
    let pr := _upload_file_to_azure env st fd.path
    let pr2 := uploadLoop env pr.2 rest
    match pr.1 with
    | some fid => if fid != "" then (fid :: pr2.1, pr2.2) else (pr2.1, pr2.2)
    | none => (pr2.1, pr2.2)

/-- The model-resolution step of `create_azure_assistant`:
    keep the requested model if it is verbatim among the deployment ids,
    else the first deployment containing `"gpt-4"`, else (Python `or`)
    the first deployment id if any. -/
def resolveTargetModel (requested : Option String)
    (deployment_ids : List String) : Option String :=
  let inList :=
    match requested with
    | some s => deployment_ids.contains s
    | none => false
  if inList then requested
  else
    pyOrStr (deployment_ids.find? (fun d => containsSubstr gpt4Needle d))
      deployment_ids.head?

/-- Resolution followed by the `if not target_model: return None` truthiness
    check of `create_azure_assistant`. -/
def checkedTarget (requested : Option String) (ids : List String) :
    Option String :=
  match resolveTargetModel requested ids with
  | none => none
  | some t => if t = "" then none else some t

/-- `AssistantMigrator.create_azure_assistant`: upload the files (falsy
    upload results are skipped), list deployments, resolve the model,
    create the assistant.  Exceptions in the deployments/create part are
    caught and surface as `None`. -/
def create_azure_assistant (env : Env) (st : St) (details : Details) :
    Option String × St :=
  let pr := uploadLoop env st (asFiles (dget details "file_details"))
  let azure_file_ids := pr.1
  let st1 := pr.2
  match env.deployments with
  | Except.error _ => (none, st1)
  | Except.ok deployment_ids =>
    match resolveTargetModel (asStr (dget details "model")) deployment_ids with
    | none => (none, st1)
    | some t =>
      if t = "" then (none, st1)
      else
        let st2 : St :=
          { st1 with events := st1.events ++ [Event.create t azure_file_ids] }
        match env.createAssistant (asStr (dget details "name"))
            (asStr (dget details "instructions")) t
            (asTools (dget details "tools")) azure_file_ids with
        | Except.ok rid => (some rid, st2)
        | Except.error _ => (none, st2)

/-- `AssistantMigrator.get_openai_assistants`: wrapped listing that
    returns `[]` on failure.  (Defined in the source but never called by
    `migrate_all_assistants`.) -/
def get_openai_assistants (env : Env) : List AssistantObj :=
  match env.listAssistants with
  | Except.ok l => l
  | Except.error _ => []

/-- Python dict assignment `m[k] = v`: overwrite in place, else append. -/
def dictInsert (m : List (String × String)) (k v : String) :
    List (String × String) :=
  if m.any (fun kv => kv.1 = k) then
    m.map (fun kv => if kv.1 = k then (k, v) else kv)
  else m ++ [(k, v)]

/-- The body of the `for assistant in cursor` loop of
    `migrate_all_assistants`: empty details skip the item; a truthy
    creation result is recorded in the mapping. -/
def migrateLoop (env : Env) : St → List (String × String) →
    List AssistantObj → List (String × String) × St
  | st, map, [] => (map, st)
  | st, map, a :: rest =>
    let pr := get_assistant_details env st a.id
    if pr.1.isEmpty then migrateLoop env pr.2 map rest
    else
      let cr := create_azure_assistant env pr.2 pr.1
      match cr.1 with
      | some rid =>
        if rid != "" then
          migrateLoop env cr.2 (dictInsert map a.id rid) rest
        else migrateLoop env cr.2 map rest
      | none => migrateLoop env cr.2 map rest

/-- `AssistantMigrator.migrate_all_assistants`: iterates the *raw*
    paginated listing (not the wrapped `get_openai_assistants`), so a
    listing error propagates as an exception. -/
def migrate_all_assistants (env : Env) (st : St) :
    Except String (List (String × String) × St) :=
  match env.listAssistants with
  | Except.error e => Except.error e
  | Except.ok as_ => Except.ok (migrateLoop env st [] as_)

/-- The three required environment variables, in the order the error
    message of `main` lists them. -/
def requiredVars : List String :=
  ["OPENAI_API_KEY", "AZURE_OPENAI_API_KEY", "AZURE_OPENAI_ENDPOINT"]

/-- The process environment and the startup connection checks of
    `AssistantMigrator.__init__`. -/
structure MainEnv where
  getenv : String → Option String
  openaiCheck : Except String Unit
  azureCheck : Except String Unit
  runEnv : Env

/-- Outcome of `main`: an explicit `sys.exit` carrying the variable names
    listed in the error message, an uncaught exception (the interpreter
    then exits non-zero), or normal completion (exit status zero) with
    the final mapping. -/
inductive MainResult where
  | exited (code : Nat) (messageVars : List String)
  | uncaught (e : String)
  | completed (map : List (String × String))
  deriving DecidableEq

/-- `main`: check the three environment variables (Python truthiness, and
    the error message always lists all three names), run both connection
    checks, then `migrate_all_assistants`. -/
def main_model (m : MainEnv) : MainResult :=
  if ([m.getenv "OPENAI_API_KEY", m.getenv "AZURE_OPENAI_API_KEY",
       m.getenv "AZURE_OPENAI_ENDPOINT"].all truthyOptStr) then
    match m.openaiCheck with
    | Except.error _ => MainResult.exited 1 []
    | Except.ok _ =>
      match m.azureCheck with
      | Except.error _ => MainResult.exited 1 []
      | Except.ok _ =>
        match migrate_all_assistants m.runEnv stInit with
        | Except.error e => MainResult.uncaught e
        | Except.ok pr => MainResult.completed pr.1
  else MainResult.exited 1 requiredVars

/-- Pure result of `_download_file`. -/
def downloadRes (env : Env) (fid : String) : Except String String :=
  match env.fileContent fid with
  | Except.error e => Except.error e
  | Except.ok _ =>
    match env.fileMeta fid with
    | Except.error e => Except.error e
    | Except.ok meta =>
      let filename :=
        match meta.filename with
        | some s => if s != "" then s else fid ++ ".bin"
        | none => fid ++ ".bin"
      Except.ok (pathJoin env.tmpdir filename)

/-- Pure result of the download loop of `get_assistant_details`. -/
def downloadFilesRes (env : Env) : List String →
    Except String (List FileDetailEntry)
  | [] => Except.ok []
  | f :: rest =>
    match downloadRes env f with
    | Except.error e => Except.error e
    | Except.ok p =>
      match downloadFilesRes env rest with
      | Except.error e => Except.error e
      | Except.ok ds => Except.ok (⟨f, p⟩ :: ds)

/-- Events issued by the download loop (it stops at the first failure). -/
def downloadFilesTrace (env : Env) : List String → List Event
  | [] => []
  | f :: rest =>
    Event.download f ::
      (match downloadRes env f with
       | Except.error _ => []
       | Except.ok _ => downloadFilesTrace env rest)

/-- Pure result of `get_assistant_details`. -/
def detailsRes (env : Env) (aid : String) : Details :=
  match env.retrieve aid with
  | Except.error _ => []
  | Except.ok a =>
    match downloadFilesRes env a.file_ids with
    | Except.error _ => []
    | Except.ok fds => detailsDict a fds

/-- Events issued by `get_assistant_details`. -/
def detailsTrace (env : Env) (aid : String) : List Event :=
  Event.detailFetch aid ::
    (match env.retrieve aid with
     | Except.error _ => []
     | Except.ok a => downloadFilesTrace env a.file_ids)

/-- Pure result of `_upload_file_to_azure`. -/
def uploadRes (env : Env) (path : String) : Option String :=
  match env.uploadFile path with
  | Except.ok fid => some fid
  | Except.error _ => none

/-- Pure result of the upload loop: falsy upload results are skipped. -/
def uploadLoopRes (env : Env) : List FileDetailEntry → List String
  | [] => []
  | fd :: rest =>
    match uploadRes env fd.path with
    | some fid =>
      if fid != "" then fid :: uploadLoopRes env rest
      else uploadLoopRes env rest
    | none => uploadLoopRes env rest

/-- Events issued by the upload loop: every file is attempted. -/
def uploadLoopTrace (_env : Env) (fds : List FileDetailEntry) : List Event :=
  fds.map (fun fd => Event.upload fd.path)

/-- Pure result of `create_azure_assistant`. -/
def createRes (env : Env) (details : Details) : Option String :=
  match env.deployments with
  | Except.error _ => none
  | Except.ok deployment_ids =>
    match resolveTargetModel (asStr (dget details "model")) deployment_ids with
    | none => none
    | some t =>
      if t = "" then none
      else
        match env.createAssistant (asStr (dget details "name"))
            (asStr (dget details "instructions")) t
            (asTools (dget details "tools"))
            (uploadLoopRes env (asFiles (dget details "file_details"))) with
        | Except.ok rid => some rid
        | Except.error _ => none

/-- Events issued by `create_azure_assistant`. -/
def createTrace (env : Env) (details : Details) : List Event :=
  uploadLoopTrace env (asFiles (dget details "file_details")) ++
    (match env.deployments with
     | Except.error _ => []
     | Except.ok deployment_ids =>
       match resolveTargetModel (asStr (dget details "model"))
           deployment_ids with
       | none => []
       | some t =>
         if t = "" then []
         else [Event.create t
           (uploadLoopRes env (asFiles (dget details "file_details")))])

/-- An assistant migrates successfully: non-empty details and a truthy
    creation result. -/
def itemSucceeds (env : Env) (a : AssistantObj) : Bool :=
  !(detailsRes env a.id).isEmpty &&
    truthyOptStr (createRes env (detailsRes env a.id))

/-- Pure mapping computed by the migration loop. -/
def migrateLoopMap (env : Env) : List (String × String) →
    List AssistantObj → List (String × String)
  | map, [] => map
  | map, a :: rest =>
    let d := detailsRes env a.id
    if d.isEmpty then migrateLoopMap env map rest
    else
      match createRes env d with
      | some rid =>
        if rid != "" then migrateLoopMap env (dictInsert map a.id rid) rest
        else migrateLoopMap env map rest
      | none => migrateLoopMap env map rest

/-- Events issued by the migration loop. -/
def migrateLoopTrace (env : Env) : List AssistantObj → List Event
  | [] => []
  | a :: rest =>
    detailsTrace env a.id ++
      (if (detailsRes env a.id).isEmpty then []
       else createTrace env (detailsRes env a.id)) ++
      migrateLoopTrace env rest

/-- Number of `detailFetch i` events in a trace. -/
def detailCount (i : String) (evs : List Event) : Nat :=
  (evs.filter (fun e => decide (e = Event.detailFetch i))).length

/-- Whether an `Except` computation completed without raising. -/
def exceptIsOk {α : Type} : Except String α → Bool
  | Except.ok _ => true
  | Except.error _ => false

/-- Environment whose assistant-listing call raises. -/
def c4Env : Env :=
  { tmpdir := "/tmp"
    listAssistants := Except.error "listing failed"
    retrieve := fun _ => Except.error "unused"
    fileContent := fun _ => Except.error "unused"
    fileMeta := fun _ => Except.error "unused"
    uploadFile := fun _ => Except.error "unused"
    deployments := Except.ok ["gpt-4"]
    createAssistant := fun _ _ _ _ _ => Except.ok "d1" }

/-- A run environment that is never reached (`main` exits first). -/
def unreachedEnv : Env :=
  { tmpdir := "/tmp"
    listAssistants := Except.ok []
    retrieve := fun _ => Except.error "unused"
    fileContent := fun _ => Except.error "unused"
    fileMeta := fun _ => Except.error "unused"
    uploadFile := fun _ => Except.error "unused"
    deployments := Except.ok []
    createAssistant := fun _ _ _ _ _ => Except.error "unused" }

/-- Process environment in which only `OPENAI_API_KEY` is missing. -/
def c5MainEnv : MainEnv :=
  { getenv := fun v => if v = "OPENAI_API_KEY" then none else some "k"
    openaiCheck := Except.ok ()
    azureCheck := Except.ok ()
    runEnv := unreachedEnv }

/-- Run environment whose listing call raises mid-run. -/
def c6RunEnv : Env :=
  { tmpdir := "/tmp"
    listAssistants := Except.error "listing failed"
    retrieve := fun _ => Except.error "unused"
    fileContent := fun _ => Except.error "unused"
    fileMeta := fun _ => Except.error "unused"
    uploadFile := fun _ => Except.error "unused"
    deployments := Except.ok ["gpt-4"]
    createAssistant := fun _ _ _ _ _ => Except.ok "d1" }

/-- Complete process environment with passing startup checks but a
    failing listing call. -/
def c6MainEnv : MainEnv :=
  { getenv := fun _ => some "k"
    openaiCheck := Except.ok ()
    azureCheck := Except.ok ()
    runEnv := c6RunEnv }

/-- Run environment for the C6 witness: empty listing, nothing fails. -/
def c6wRunEnv : Env :=
  { tmpdir := "/tmp"
    listAssistants := Except.ok []
    retrieve := fun _ => Except.error "unused"
    fileContent := fun _ => Except.error "unused"
    fileMeta := fun _ => Except.error "unused"
    uploadFile := fun _ => Except.error "unused"
    deployments := Except.ok ["gpt-4"]
    createAssistant := fun _ _ _ _ _ => Except.ok "d1" }

/-- Process environment for the C6 witness. -/
def c6wMainEnv : MainEnv :=
  { getenv := fun _ => some "k"
    openaiCheck := Except.ok ()
    azureCheck := Except.ok ()
    runEnv := c6wRunEnv }

/-- Details dict of an assistant whose model is `"a"`, used to exercise
    the model-resolution fallback. -/
def c1Details : Details :=
  [("id", Val.str "a1"), ("name", Val.optStr (some "A")),
   ("instructions", Val.optStr none), ("model", Val.str "a"),
   ("tools", Val.tools []), ("file_details", Val.files [])]

/-- Environment whose only Azure deployment id is the empty string and
    whose create call always succeeds. -/
def c1Env : Env :=
  { tmpdir := "/tmp"
    listAssistants := Except.ok []
    retrieve := fun _ => Except.error "unused"
    fileContent := fun _ => Except.error "unused"
    fileMeta := fun _ => Except.error "unused"
    uploadFile := fun _ => Except.error "unused"
    deployments := Except.ok [""]
    createAssistant := fun _ _ _ _ _ => Except.ok "dest-1" }

/-- Environment with one assistant owning one file whose upload to the
    destination always fails; every other step succeeds. -/
def c3Env : Env :=
  { tmpdir := "/tmp"
    listAssistants :=
      Except.ok [⟨"a1", some "A", some "inst", "gpt-4", ["code"], ["f1"]⟩]
    retrieve := fun aid =>
      if aid = "a1" then
        Except.ok ⟨"a1", some "A", some "inst", "gpt-4", ["code"], ["f1"]⟩
      else Except.error "404"
    fileContent := fun _ => Except.ok [1, 2]
    fileMeta := fun _ => Except.ok ⟨some "doc.txt"⟩
    uploadFile := fun _ => Except.error "upload failed"
    deployments := Except.ok ["gpt-4"]
    createAssistant := fun _ _ _ _ _ => Except.ok "d1" }

/-- Assistant and environment for the C3 witness: detail retrieval
    fails, so the assistant is skipped and the loop continues. -/
def c3wAsst : AssistantObj := ⟨"a9", some "B", none, "gpt-4", [], []⟩

/-- Environment whose retrieve call always fails. -/
def c3wEnv : Env :=
  { tmpdir := "/tmp"
    listAssistants := Except.ok [⟨"a9", some "B", none, "gpt-4", [], []⟩]
    retrieve := fun _ => Except.error "detail fetch failed"
    fileContent := fun _ => Except.error "unused"
    fileMeta := fun _ => Except.error "unused"
    uploadFile := fun _ => Except.error "unused"
    deployments := Except.ok ["gpt-4"]
    createAssistant := fun _ _ _ _ _ => Except.ok "d1" }

/-- Environment whose file metadata carries the *empty* filename. -/
def c9Env : Env :=
  { tmpdir := "/tmp"
    listAssistants := Except.ok []
    retrieve := fun _ => Except.error "unused"
    fileContent := fun _ => Except.ok [7]
    fileMeta := fun _ => Except.ok ⟨some ""⟩
    uploadFile := fun _ => Except.error "unused"
    deployments := Except.ok []
    createAssistant := fun _ _ _ _ _ => Except.error "unused" }

/-- Environment for the C9 witness: two distinct file ids share the
    metadata filename `shared.txt` with different payloads. -/
def c9wEnv : Env :=
  { tmpdir := "/tmp"
    listAssistants := Except.ok []
    retrieve := fun _ => Except.error "unused"
    fileContent := fun f => if f = "f1" then Except.ok [1] else Except.ok [2]
    fileMeta := fun _ => Except.ok ⟨some "shared.txt"⟩
    uploadFile := fun _ => Except.error "unused"
    deployments := Except.ok []
    createAssistant := fun _ _ _ _ _ => Except.error "unused" }

/-- Environment for the C10 witness: one retrievable assistant with no
    files. -/
def c10Env : Env :=
  { tmpdir := "/tmp"
    listAssistants := Except.ok []
    retrieve := fun aid =>
      if aid = "a1" then
        Except.ok ⟨"a1", some "A", none, "gpt-4", [], []⟩
      else Except.error "404"
    fileContent := fun _ => Except.error "unused"
    fileMeta := fun _ => Except.error "unused"
    uploadFile := fun _ => Except.error "unused"
    deployments := Except.ok []
    createAssistant := fun _ _ _ _ _ => Except.error "unused" }

/-- The zero-file assistant used by the C8 witness. -/
def c8wAsst : AssistantObj := ⟨"a1", some "A", some "i", "gpt-4", ["code"], []⟩

/-- Environment for the C8 witness. -/
def c8wEnv : Env :=
  { tmpdir := "/tmp"
    listAssistants := Except.ok [c8wAsst]
    retrieve := fun aid =>
      if aid = "a1" then Except.ok c8wAsst else Except.error "404"
    fileContent := fun _ => Except.error "unused"
    fileMeta := fun _ => Except.error "unused"
    uploadFile := fun _ => Except.error "unused"
    deployments := Except.ok ["gpt-4"]
    createAssistant := fun _ _ _ _ _ => Except.ok "d1" }

/-- Listing for the C2 witness: `a1` retrieves, `a2` does not. -/
def c2List : List AssistantObj :=
  [⟨"a1", some "A", none, "gpt-4", [], []⟩,
   ⟨"a2", some "B", none, "gpt-4", [], []⟩]

/-- Environment for the C2 witness: detail retrieval fails only for
    `a2`; creation succeeds. -/
def c2Env : Env :=
  { tmpdir := "/tmp"
    listAssistants := Except.ok c2List
    retrieve := fun aid =>
      if aid = "a1" then Except.ok ⟨"a1", some "A", none, "gpt-4", [], []⟩
      else Except.error "detail fetch failed"
    fileContent := fun _ => Except.error "unused"
    fileMeta := fun _ => Except.error "unused"
    uploadFile := fun _ => Except.error "unused"
    deployments := Except.ok ["gpt-4"]
    createAssistant := fun _ _ _ _ _ => Except.ok "d1" }

/-- Listing for the C7 witness: two distinct assistants. -/
def c7List : List AssistantObj :=
  [⟨"a1", some "A", none, "gpt-4", [], []⟩,
   ⟨"a2", some "B", none, "gpt-4", [], []⟩]

/-- Environment for the C7 witness: both assistants migrate. -/
def c7Env : Env :=
  { tmpdir := "/tmp"
    listAssistants := Except.ok c7List
    retrieve := fun aid =>
      if aid = "a1" then Except.ok ⟨"a1", some "A", none, "gpt-4", [], []⟩
      else if aid = "a2" then
        Except.ok ⟨"a2", some "B", none, "gpt-4", [], []⟩
      else Except.error "404"
    fileContent := fun _ => Except.error "unused"
    fileMeta := fun _ => Except.error "unused"
    uploadFile := fun _ => Except.error "unused"
    deployments := Except.ok ["gpt-4"]
    createAssistant := fun n _ _ _ _ =>
      if n = some "A" then Except.ok "d1" else Except.ok "d2" }

/-! ## Theorems -/

theorem download_fst (env : Env) (st : St) (f : String) :
    (_download_file env st f).1 = downloadRes env f := by
  unfold _download_file downloadRes
  cases hc : env.fileContent f with
  | error e => rfl
  | ok b =>
    cases hm : env.fileMeta f with
    | error e => rfl
    | ok m => rfl

theorem download_events (env : Env) (st : St) (f : String) :
    (_download_file env st f).2.events = st.events ++ [Event.download f] := by
  unfold _download_file
  cases hc : env.fileContent f with
  | error e => rfl
  | ok b =>
    cases hm : env.fileMeta f with
    | error e => rfl
    | ok m => rfl

theorem downloadFiles_fst (env : Env) (fs : List String) :
    ∀ st : St, (downloadFiles env st fs).1 = downloadFilesRes env fs := by
  induction fs with
  | nil => intro st; rfl
  | cons f rest ih =>
    intro st
    simp only [downloadFiles, downloadFilesRes, download_fst]
    cases hd : downloadRes env f with
    | error e => rfl
    | ok p =>
      simp only [ih]
      cases hr : downloadFilesRes env rest with
      | error e => rfl
      | ok ds => rfl

theorem downloadFiles_events (env : Env) (fs : List String) :
    ∀ st : St, (downloadFiles env st fs).2.events
      = st.events ++ downloadFilesTrace env fs := by
  induction fs with
  | nil => intro st; simp [downloadFiles, downloadFilesTrace]
  | cons f rest ih =>
    intro st
    cases hd : downloadRes env f with
    | error e =>
      simp [downloadFiles, downloadFilesTrace, download_fst, hd,
        download_events]
    | ok p =>
      cases hr : downloadFilesRes env rest with
      | error e =>
        simp [downloadFiles, downloadFilesTrace, download_fst,
          downloadFiles_fst, hd, hr, ih, download_events]
      | ok ds =>
        simp [downloadFiles, downloadFilesTrace, download_fst,
          downloadFiles_fst, hd, hr, ih, download_events]

theorem details_fst (env : Env) (st : St) (aid : String) :
    (get_assistant_details env st aid).1 = detailsRes env aid := by
  unfold get_assistant_details detailsRes
  cases hr : env.retrieve aid with
  | error e => rfl
  | ok a =>
    simp only [downloadFiles_fst]
    cases hd : downloadFilesRes env a.file_ids with
    | error e => rfl
    | ok fds => rfl

theorem details_events (env : Env) (st : St) (aid : String) :
    (get_assistant_details env st aid).2.events
      = st.events ++ detailsTrace env aid := by
  unfold get_assistant_details detailsTrace
  cases hr : env.retrieve aid with
  | error e => simp
  | ok a =>
    simp only [downloadFiles_fst]
    cases hd : downloadFilesRes env a.file_ids with
    | error e =>
      simp only [downloadFiles_events]
      simp
    | ok fds =>
      simp only [downloadFiles_events]
      simp

theorem upload_fst (env : Env) (st : St) (p : String) :
    (_upload_file_to_azure env st p).1 = uploadRes env p := by
  unfold _upload_file_to_azure uploadRes
  cases h : env.uploadFile p <;> rfl

theorem upload_events (env : Env) (st : St) (p : String) :
    (_upload_file_to_azure env st p).2.events
      = st.events ++ [Event.upload p] := by
  unfold _upload_file_to_azure
  cases h : env.uploadFile p <;> rfl

theorem uploadLoop_fst (env : Env) (fds : List FileDetailEntry) :
    ∀ st : St, (uploadLoop env st fds).1 = uploadLoopRes env fds := by
  induction fds with
  | nil => intro st; rfl
  | cons fd rest ih =>
    intro st
    simp only [uploadLoop, uploadLoopRes, upload_fst, ih]
    cases hu : uploadRes env fd.path with
    | none => rfl
    | some fid =>
      by_cases hf : fid = "" <;> simp [hf]

theorem uploadLoop_events (env : Env) (fds : List FileDetailEntry) :
    ∀ st : St, (uploadLoop env st fds).2.events
      = st.events ++ uploadLoopTrace env fds := by
  induction fds with
  | nil => intro st; simp [uploadLoop, uploadLoopTrace]
  | cons fd rest ih =>
    intro st
    simp only [uploadLoop, uploadLoopTrace, upload_fst]
    cases hu : uploadRes env fd.path with
    | none =>
      simp only [ih, upload_events]
      simp [uploadLoopTrace]
    | some fid =>
      by_cases hf : fid = "" <;>
        simp [hf, ih, upload_events, uploadLoopTrace]

theorem create_fst (env : Env) (st : St) (d : Details) :
    (create_azure_assistant env st d).1 = createRes env d := by
  cases hd : env.deployments with
  | error e => simp [create_azure_assistant, createRes, hd, uploadLoop_fst]
  | ok ids =>
    cases ht : resolveTargetModel (asStr (dget d "model")) ids with
    | none =>
      simp [create_azure_assistant, createRes, hd, ht, uploadLoop_fst]
    | some t =>
      by_cases he : t = ""
      · simp [create_azure_assistant, createRes, hd, ht, he, uploadLoop_fst]
      · cases hc : env.createAssistant (asStr (dget d "name"))
            (asStr (dget d "instructions")) t (asTools (dget d "tools"))
            (uploadLoopRes env (asFiles (dget d "file_details"))) with
        | ok rid =>
          simp [create_azure_assistant, createRes, hd, ht, he, hc,
            uploadLoop_fst]
        | error e2 =>
          simp [create_azure_assistant, createRes, hd, ht, he, hc,
            uploadLoop_fst]

theorem create_events (env : Env) (st : St) (d : Details) :
    (create_azure_assistant env st d).2.events
      = st.events ++ createTrace env d := by
  cases hd : env.deployments with
  | error e =>
    simp [create_azure_assistant, createTrace, hd, uploadLoop_fst,
      uploadLoop_events]
  | ok ids =>
    cases ht : resolveTargetModel (asStr (dget d "model")) ids with
    | none =>
      simp [create_azure_assistant, createTrace, hd, ht, uploadLoop_fst,
        uploadLoop_events]
    | some t =>
      by_cases he : t = ""
      · simp [create_azure_assistant, createTrace, hd, ht, he,
          uploadLoop_fst, uploadLoop_events]
      · cases hc : env.createAssistant (asStr (dget d "name"))
            (asStr (dget d "instructions")) t (asTools (dget d "tools"))
            (uploadLoopRes env (asFiles (dget d "file_details"))) with
        | ok rid =>
          simp [create_azure_assistant, createTrace, hd, ht, he, hc,
            uploadLoop_fst, uploadLoop_events]
        | error e2 =>
          simp [create_azure_assistant, createTrace, hd, ht, he, hc,
            uploadLoop_fst, uploadLoop_events]

theorem migrateLoop_fst (env : Env) (l : List AssistantObj) :
    ∀ (st : St) (map : List (String × String)),
      (migrateLoop env st map l).1 = migrateLoopMap env map l := by
  induction l with
  | nil => intro st map; rfl
  | cons a rest ih =>
    intro st map
    cases hd : (detailsRes env a.id).isEmpty with
    | true => simp [migrateLoop, migrateLoopMap, details_fst, hd, ih]
    | false =>
      cases hc : createRes env (detailsRes env a.id) with
      | none =>
        simp [migrateLoop, migrateLoopMap, details_fst, create_fst, hd, hc,
          ih]
      | some rid =>
        by_cases hr : rid = "" <;>
          simp [migrateLoop, migrateLoopMap, details_fst, create_fst, hd,
            hc, hr, ih]

theorem migrateLoop_events (env : Env) (l : List AssistantObj) :
    ∀ (st : St) (map : List (String × String)),
      (migrateLoop env st map l).2.events
        = st.events ++ migrateLoopTrace env l := by
  induction l with
  | nil => intro st map; simp [migrateLoop, migrateLoopTrace]
  | cons a rest ih =>
    intro st map
    cases hd : (detailsRes env a.id).isEmpty with
    | true =>
      simp [migrateLoop, migrateLoopTrace, details_fst, details_events, hd,
        ih]
    | false =>
      cases hc : createRes env (detailsRes env a.id) with
      | none =>
        simp [migrateLoop, migrateLoopTrace, details_fst, details_events,
          create_fst, create_events, hd, hc, ih]
      | some rid =>
        by_cases hr : rid = "" <;>
          simp [migrateLoop, migrateLoopTrace, details_fst, details_events,
            create_fst, create_events, hd, hc, hr, ih]

/-- Inserting a fresh key appends the pair at the end. -/
theorem dictInsert_of_not_mem (m : List (String × String)) (k v : String)
    (h : k ∉ m.map Prod.fst) :
    dictInsert m k v = m ++ [(k, v)] := by
  have hany : m.any (fun kv => decide (kv.1 = k)) = false := by
    simp only [List.any_eq_false, decide_eq_true_eq]
    intro kv hkv hk
    exact h (hk ▸ List.mem_map_of_mem Prod.fst hkv)
  simp [dictInsert, hany]

/-- Keys of the mapping produced by the loop: the already-present keys
    followed by the ids of the assistants that migrate successfully. -/
theorem migrateLoopMap_keys (env : Env) (l : List AssistantObj) :
    ∀ map : List (String × String),
      (∀ a ∈ l, a.id ∉ map.map Prod.fst) →
      (l.map (fun a => a.id)).Nodup →
      (migrateLoopMap env map l).map Prod.fst
        = map.map Prod.fst
          ++ (l.filter (itemSucceeds env)).map (fun a => a.id) := by
  induction l with
  | nil => intro map h hn; simp [migrateLoopMap]
  | cons a rest ih =>
    intro map h hn
    have hn' : (rest.map (fun a => a.id)).Nodup := by
      simpa using List.Nodup.of_cons hn
    have hafresh : ∀ b ∈ rest, b.id ≠ a.id := by
      have h1 : (a.id :: rest.map (fun a => a.id)).Nodup := by simpa using hn
      have h2 := (List.nodup_cons.mp h1).1
      intro b hb hbe
      exact h2 (hbe ▸ List.mem_map_of_mem (fun a => a.id) hb)
    have hrest : ∀ b ∈ rest, b.id ∉ map.map Prod.fst := by
      intro b hb
      exact h b (List.mem_cons_of_mem _ hb)
    cases hd : (detailsRes env a.id).isEmpty with
    | true =>
      have hitem : itemSucceeds env a = false := by
        simp [itemSucceeds, hd]
      rw [show migrateLoopMap env map (a :: rest)
          = migrateLoopMap env map rest by
        simp [migrateLoopMap, hd]]
      simp [List.filter_cons, hitem]
      exact ih map hrest hn'
    | false =>
      cases hc : createRes env (detailsRes env a.id) with
      | none =>
        have hitem : itemSucceeds env a = false := by
          simp [itemSucceeds, hd, hc, truthyOptStr]
        rw [show migrateLoopMap env map (a :: rest)
            = migrateLoopMap env map rest by
          simp [migrateLoopMap, hd, hc]]
        simp [List.filter_cons, hitem]
        exact ih map hrest hn'
      | some rid =>
        by_cases hr : rid = ""
        · have hitem : itemSucceeds env a = false := by
            simp [itemSucceeds, hd, hc, hr, truthyOptStr]
          rw [show migrateLoopMap env map (a :: rest)
              = migrateLoopMap env map rest by
            simp [migrateLoopMap, hd, hc, hr]]
          simp [List.filter_cons, hitem]
          exact ih map hrest hn'
        · have hitem : itemSucceeds env a = true := by
            simp [itemSucceeds, hd, hc, hr, truthyOptStr]
          have hins : dictInsert map a.id rid = map ++ [(a.id, rid)] :=
            dictInsert_of_not_mem map a.id rid
              (h a (List.mem_cons_self a rest))
          have hrest' : ∀ b ∈ rest,
              b.id ∉ (dictInsert map a.id rid).map Prod.fst := by
            intro b hb
            rw [hins]
            simp only [List.map_append, List.mem_append]
            intro hmem
            cases hmem with
            | inl hin => exact hrest b hb hin
            | inr hin =>
              simp at hin
              exact hafresh b hb hin
          rw [show migrateLoopMap env map (a :: rest)
              = migrateLoopMap env (dictInsert map a.id rid) rest by
            simp [migrateLoopMap, hd, hc, hr]]
          rw [ih (dictInsert map a.id rid) hrest' hn', hins]
          simp [List.filter_cons, hitem]

theorem detailCount_nil (i : String) : detailCount i [] = 0 := rfl

theorem detailCount_append (i : String) (xs ys : List Event) :
    detailCount i (xs ++ ys) = detailCount i xs + detailCount i ys := by
  simp [detailCount, List.filter_append]

theorem detailCount_cons (i : String) (e : Event) (evs : List Event) :
    detailCount i (e :: evs)
      = (if e = Event.detailFetch i then 1 else 0) + detailCount i evs := by
  by_cases h : e = Event.detailFetch i
  · simp [detailCount, List.filter_cons, h]
    omega
  · simp [detailCount, List.filter_cons, h]

theorem detailCount_eq_zero (i : String) (evs : List Event)
    (h : ∀ e ∈ evs, e ≠ Event.detailFetch i) : detailCount i evs = 0 := by
  induction evs with
  | nil => rfl
  | cons e rest ih =>
    rw [detailCount_cons]
    rw [if_neg (h e (List.mem_cons_self e rest))]
    simpa using ih (fun x hx => h x (List.mem_cons_of_mem _ hx))

theorem downloadFilesTrace_noDetail (env : Env) (fs : List String) :
    ∀ e ∈ downloadFilesTrace env fs, ∃ f, e = Event.download f := by
  induction fs with
  | nil => intro e he; simp [downloadFilesTrace] at he
  | cons f rest ih =>
    intro e he
    cases hd : downloadRes env f with
    | error e2 =>
      simp [downloadFilesTrace, hd] at he
      exact ⟨f, he⟩
    | ok p =>
      simp only [downloadFilesTrace, hd, List.mem_cons] at he
      cases he with
      | inl h1 => exact ⟨f, h1⟩
      | inr h1 => exact ih e h1

theorem createTrace_noDetail (env : Env) (d : Details) :
    ∀ e ∈ createTrace env d,
      (∃ p, e = Event.upload p) ∨ ∃ t ids, e = Event.create t ids := by
  intro e he
  simp only [createTrace, List.mem_append] at he
  cases he with
  | inl h1 =>
    simp only [uploadLoopTrace, List.mem_map] at h1
    obtain ⟨fd, _, hfd⟩ := h1
    exact Or.inl ⟨fd.path, hfd.symm⟩
  | inr h1 =>
    cases hd : env.deployments with
    | error e2 => simp [hd] at h1
    | ok ids =>
      cases ht : resolveTargetModel (asStr (dget d "model")) ids with
      | none => simp [hd, ht] at h1
      | some t =>
        by_cases hte : t = ""
        · simp [hd, ht, hte] at h1
        · simp [hd, ht, hte] at h1
          exact Or.inr ⟨t, _, h1⟩

theorem detailsTrace_detailCount (env : Env) (aid i : String) :
    detailCount i (detailsTrace env aid)
      = if aid = i then 1 else 0 := by
  have htail : detailCount i
      (match env.retrieve aid with
       | Except.error _ => []
       | Except.ok a => downloadFilesTrace env a.file_ids) = 0 := by
    cases hr : env.retrieve aid with
    | error e => exact detailCount_nil i
    | ok a =>
      apply detailCount_eq_zero
      intro e he
      obtain ⟨f, hf⟩ := downloadFilesTrace_noDetail env a.file_ids e he
      simp [hf]
  rw [detailsTrace, detailCount_cons, htail]
  by_cases h : aid = i <;> simp [h]

theorem createTrace_detailCount (env : Env) (d : Details) (i : String) :
    detailCount i (createTrace env d) = 0 := by
  apply detailCount_eq_zero
  intro e he
  cases createTrace_noDetail env d e he with
  | inl h1 => obtain ⟨p, hp⟩ := h1; simp [hp]
  | inr h1 => obtain ⟨t, ids, hp⟩ := h1; simp [hp]

theorem migrateLoopTrace_detailCount (env : Env) (i : String)
    (l : List AssistantObj) :
    detailCount i (migrateLoopTrace env l)
      = (l.map (fun a => a.id)).count i := by
  induction l with
  | nil => simp [migrateLoopTrace, detailCount_nil]
  | cons a rest ih =>
    have hmid : detailCount i
        (if (detailsRes env a.id).isEmpty then []
         else createTrace env (detailsRes env a.id)) = 0 := by
      by_cases h : (detailsRes env a.id).isEmpty = true
      · simp [h, detailCount_nil]
      · simp only [h]
        simp [createTrace_detailCount]
    rw [migrateLoopTrace, detailCount_append, detailCount_append, hmid,
      detailsTrace_detailCount, ih]
    by_cases h : a.id = i
    · simp [h, List.count_cons]
      omega
    · simp [h, List.count_cons, Ne.symm h]

/-- The two complementary filters of a list partition its length. -/
theorem length_filter_split {α : Type} (p : α → Bool) (l : List α) :
    (l.filter p).length + (l.filter (fun x => !(p x))).length
      = l.length := by
  induction l with
  | nil => rfl
  | cons x xs ih =>
    cases hp : p x <;> simp [List.filter_cons, hp] <;> omega

/-- C4 counterexample: the claim says that when the initial listing call
    errors, the listing operation used by the migration run returns an
    empty sequence so that `migrate_all_assistants` completes with an
    empty mapping.  In the code only the unused wrapper
    `get_openai_assistants` is protected; `migrate_all_assistants`
    iterates the raw listing call, so the error propagates and the run
    raises instead of returning a mapping. -/
theorem c4_counterexample :
    get_openai_assistants c4Env = [] ∧
    migrate_all_assistants c4Env stInit = Except.error "listing failed" ∧
    exceptIsOk (migrate_all_assistants c4Env stInit) = false := by
  decide

/-- C4 (amended): on a listing error the wrapped helper
    `get_openai_assistants` returns the empty list, but
    `migrate_all_assistants` calls the client listing directly, so the
    same error propagates out of the migration run (it raises rather
    than returning an empty mapping). -/
theorem c4_amended (env : Env) (st : St) (e : String)
    (h : env.listAssistants = Except.error e) :
    get_openai_assistants env = [] ∧
    migrate_all_assistants env st = Except.error e := by
  constructor
  · simp [get_openai_assistants, h]
  · simp [migrate_all_assistants, h]

/-- Witness for C4 (amended) at the concrete failing environment. -/
theorem c4_amended_witness :
    get_openai_assistants c4Env = [] ∧
    migrate_all_assistants c4Env stInit = Except.error "listing failed" :=
  c4_amended c4Env stInit "listing failed" rfl

/-- C5 counterexample: with only `OPENAI_API_KEY` absent, the program
    does exit non-zero, but the message lists all three required
    variable names — including `AZURE_OPENAI_API_KEY` and
    `AZURE_OPENAI_ENDPOINT`, which are present — contradicting the
    claim that only the actually missing entries are listed. -/
theorem c5_counterexample :
    c5MainEnv.getenv "OPENAI_API_KEY" = none ∧
    c5MainEnv.getenv "AZURE_OPENAI_API_KEY" = some "k" ∧
    c5MainEnv.getenv "AZURE_OPENAI_ENDPOINT" = some "k" ∧
    main_model c5MainEnv = MainResult.exited 1 requiredVars ∧
    "AZURE_OPENAI_API_KEY" ∈ requiredVars := by
  decide

/-- C5 (amended): if any of the three required configuration values is
    absent, the program terminates immediately with exit status 1 and a
    message listing all three required variable names (regardless of
    which ones are actually missing). -/
theorem c5_amended (m : MainEnv) (v : String) (hv : v ∈ requiredVars)
    (h : m.getenv v = none) :
    main_model m = MainResult.exited 1 requiredVars := by
  have hfalse : ([m.getenv "OPENAI_API_KEY", m.getenv "AZURE_OPENAI_API_KEY",
      m.getenv "AZURE_OPENAI_ENDPOINT"].all truthyOptStr) = false := by
    simp only [requiredVars, List.mem_cons, List.not_mem_nil, or_false] at hv
    rcases hv with rfl | rfl | rfl <;> simp [List.all, h, truthyOptStr]
  simp [main_model, hfalse]

/-- Witness for C5 (amended) at the concrete environment missing
    `OPENAI_API_KEY`. -/
theorem c5_amended_witness :
    main_model c5MainEnv = MainResult.exited 1 requiredVars :=
  c5_amended c5MainEnv "OPENAI_API_KEY" (by decide) (by decide)

/-- C6 counterexample: both startup connection checks succeed, yet the
    program does not run to completion with exit status zero — the
    unprotected listing call inside `migrate_all_assistants` raises, the
    exception is uncaught in `main`, and the interpreter exits
    non-zero. -/
theorem c6_counterexample :
    c6MainEnv.openaiCheck = Except.ok () ∧
    c6MainEnv.azureCheck = Except.ok () ∧
    main_model c6MainEnv = MainResult.uncaught "listing failed" := by
  decide

/-- C6 (amended): provided the configuration check passes, both startup
    connection checks succeed, and the initial listing call succeeds,
    the program runs the migration loop to completion and exits with
    status zero regardless of how many individual assistants failed to
    migrate (no hypothesis constrains any per-assistant step). -/
theorem c6_amended (m : MainEnv) (as_ : List AssistantObj)
    (henv : ∀ v ∈ requiredVars, truthyOptStr (m.getenv v) = true)
    (h1 : m.openaiCheck = Except.ok ())
    (h2 : m.azureCheck = Except.ok ())
    (hl : m.runEnv.listAssistants = Except.ok as_) :
    main_model m
      = MainResult.completed (migrateLoop m.runEnv stInit [] as_).1 := by
  have ha := henv "OPENAI_API_KEY" (by decide)
  have hb := henv "AZURE_OPENAI_API_KEY" (by decide)
  have hc := henv "AZURE_OPENAI_ENDPOINT" (by decide)
  have hall : ([m.getenv "OPENAI_API_KEY", m.getenv "AZURE_OPENAI_API_KEY",
      m.getenv "AZURE_OPENAI_ENDPOINT"].all truthyOptStr) = true := by
    simp [List.all, ha, hb, hc]
  simp [main_model, hall, h1, h2, migrate_all_assistants, hl]

/-- Witness for C6 (amended) at a concrete passing environment. -/
theorem c6_amended_witness : main_model c6wMainEnv = MainResult.completed [] := by
  have h := c6_amended c6wMainEnv [] (by decide) rfl rfl rfl
  exact h.trans (by decide)

theorem containsSubstr_gpt4_ne_empty (g : String)
    (h : containsSubstr gpt4Needle g = true) : g ≠ "" := by
  intro hg
  rw [hg] at h
  exact absurd h (by decide)

/-- C1 counterexample: the deployment list is the non-empty list
    `[""]`, the requested model `"a"` is not in it and no deployment
    contains `"gpt-4"`, so the claimed algorithm uses the first
    deployment id `""` and creates the assistant (the create call would
    succeed).  The code instead hits the Python falsiness check
    `if not target_model` and creates nothing. -/
theorem c1_counterexample :
    c1Env.deployments = Except.ok [""] ∧
    dget c1Details "model" = some (Val.str "a") ∧
    ([""] : List String).head? = some "" ∧
    c1Env.createAssistant (some "A") none "" [] [] = Except.ok "dest-1" ∧
    (create_azure_assistant c1Env stInit c1Details).1 = none := by
  decide

/-- C1 (amended): model resolution in `create_azure_assistant` follows
    the claimed algorithm except that a resolved identifier equal to the
    empty string is treated by `if not target_model` as absent: a
    requested model found verbatim is used unless it is `""`; otherwise
    the first deployment id containing `"gpt-4"` is used (such an id is
    never empty); otherwise the first deployment id is used unless it is
    `""`; on an empty deployment list resolution fails; and whenever the
    checked resolution fails, no assistant is created for that item. -/
theorem c1_amended_resolution (requested : String) (ids : List String) :
    (requested ∈ ids →
      checkedTarget (some requested) ids
        = (if requested = "" then none else some requested)) ∧
    (requested ∉ ids →
      ∀ g, ids.find? (fun d => containsSubstr gpt4Needle d) = some g →
        checkedTarget (some requested) ids = some g) ∧
    (requested ∉ ids →
      ids.find? (fun d => containsSubstr gpt4Needle d) = none →
      checkedTarget (some requested) ids
        = (match ids.head? with
           | none => none
           | some h => if h = "" then none else some h)) ∧
    (ids = [] → checkedTarget (some requested) ids = none) ∧
    (∀ (env : Env) (st : St) (d : Details),
      env.deployments = Except.ok ids →
      dget d "model" = some (Val.str requested) →
      checkedTarget (some requested) ids = none →
      (create_azure_assistant env st d).1 = none) := by
  refine ⟨?_, ?_, ?_, ?_, ?_⟩
  · intro hmem
    by_cases he : requested = ""
    · subst he
      simp [checkedTarget, resolveTargetModel, hmem]
    · simp [checkedTarget, resolveTargetModel, hmem, he]
  · intro hmem g hg
    have hgne : g ≠ "" :=
      containsSubstr_gpt4_ne_empty g (List.find?_some hg)
    simp [checkedTarget, resolveTargetModel, hmem, hg, pyOrStr, hgne]
  · intro hmem hfind
    cases ids with
    | nil => simp [checkedTarget, resolveTargetModel, pyOrStr]
    | cons x xs =>
      have h1 : requested ≠ x := fun h => hmem (h ▸ List.mem_cons_self x xs)
      have h2 : requested ∉ xs := fun h => hmem (List.mem_cons_of_mem x h)
      by_cases hx : x = ""
      · subst hx
        simp [checkedTarget, resolveTargetModel, hfind, pyOrStr, h1, h2]
      · simp [checkedTarget, resolveTargetModel, hfind, pyOrStr, h1, h2, hx]
  · intro h
    subst h
    rfl
  · intro env st d hdep hmodel hcheck
    have hreq : asStr (dget d "model") = some requested := by
      rw [hmodel]; rfl
    cases hres : resolveTargetModel (some requested) ids with
    | none => simp [create_azure_assistant, hdep, hreq, hres]
    | some t =>
      have ht : t = "" := by
        unfold checkedTarget at hcheck
        rw [hres] at hcheck
        by_contra hne
        simp [hne] at hcheck
      subst ht
      simp [create_azure_assistant, hdep, hreq, hres]

/-- Witness for C1 (amended) at the spec's three test vectors:
    exact match wins, substring fallback applies, empty list fails. -/
theorem c1_amended_witness :
    checkedTarget (some "gpt-4") ["gpt-4", "gpt-3.5"] = some "gpt-4" ∧
    checkedTarget (some "gpt-5-preview") ["gpt-3.5", "gpt-4-turbo"]
      = some "gpt-4-turbo" ∧
    checkedTarget (some "x") ([] : List String) = none := by
  refine ⟨?_, ?_, ?_⟩
  · exact ((c1_amended_resolution "gpt-4" ["gpt-4", "gpt-3.5"]).1
      (by decide)).trans (by decide)
  · exact (c1_amended_resolution "gpt-5-preview"
      ["gpt-3.5", "gpt-4-turbo"]).2.1 (by decide) "gpt-4-turbo" (by decide)
  · exact (c1_amended_resolution "x" []).2.2.2.1 rfl

/-- C3 counterexample: the upload of assistant `a1`'s only file is
    attempted (the `upload` event is in the trace) and fails, yet `a1`
    appears in the resulting mapping: the assistant is created with an
    empty destination file list instead of being omitted, contradicting
    the claim's "in particular" sentence. -/
theorem c3_counterexample :
    c3Env.uploadFile "/tmp/doc.txt" = Except.error "upload failed" ∧
    migrate_all_assistants c3Env stInit
      = Except.ok ([("a1", "d1")],
          ⟨[("/tmp/doc.txt", [1, 2])],
           [Event.detailFetch "a1", Event.download "f1",
            Event.upload "/tmp/doc.txt", Event.create "gpt-4" []]⟩) := by
  decide

/-- C3 (amended): a failed detail fetch (which covers any download
    failure) skips the assistant and the loop continues; a falsy
    creation result (which covers model-resolution failure and a failed
    create call) skips the assistant and the loop continues; but a file
    whose upload fails is merely dropped from the uploaded-id list —
    the assistant is still created with the remaining files and can
    still appear in the mapping. -/
theorem c3_amended (env : Env) (st : St) (a : AssistantObj)
    (rest : List AssistantObj) (map : List (String × String)) :
    ((get_assistant_details env st a.id).1 = [] →
      migrateLoop env st map (a :: rest)
        = migrateLoop env (get_assistant_details env st a.id).2 map rest) ∧
    ((get_assistant_details env st a.id).1 ≠ [] →
      truthyOptStr (create_azure_assistant env
          (get_assistant_details env st a.id).2
          (get_assistant_details env st a.id).1).1 = false →
      migrateLoop env st map (a :: rest)
        = migrateLoop env (create_azure_assistant env
            (get_assistant_details env st a.id).2
            (get_assistant_details env st a.id).1).2 map rest) ∧
    (∀ (fd : FileDetailEntry) (fds : List FileDetailEntry) (e : String),
      env.uploadFile fd.path = Except.error e →
      (uploadLoop env st (fd :: fds)).1 = (uploadLoop env st fds).1) := by
  refine ⟨?_, ?_, ?_⟩
  · intro h
    simp [migrateLoop, h]
  · intro h1 h2
    have hne : (get_assistant_details env st a.id).1.isEmpty = false := by
      cases hh : (get_assistant_details env st a.id).1 with
      | nil => exact absurd hh h1
      | cons x xs => rfl
    cases hc : (create_azure_assistant env
        (get_assistant_details env st a.id).2
        (get_assistant_details env st a.id).1).1 with
    | none => simp [migrateLoop, hne, hc]
    | some rid =>
      rw [hc] at h2
      have hrid : rid = "" := by
        simpa [truthyOptStr] using h2
      subst hrid
      simp [migrateLoop, hne, hc, truthyOptStr]
  · intro fd fds e he
    have hu : uploadRes env fd.path = none := by
      simp [uploadRes, he]
    rw [uploadLoop_fst, uploadLoop_fst]
    simp [uploadLoopRes, hu]

/-- Witness for C3 (amended): the failed detail fetch of `a9` makes the
    loop continue with the remaining assistants and omit `a9`. -/
theorem c3_amended_witness :
    migrateLoop c3wEnv stInit [] [c3wAsst]
      = migrateLoop c3wEnv
          (get_assistant_details c3wEnv stInit c3wAsst.id).2 [] [] :=
  (c3_amended c3wEnv stInit c3wAsst [] []).1 (by decide)

/-- A successful download with a non-empty metadata filename writes the
    payload at `pathJoin tmpdir filename`. -/
theorem download_ok_eq (env : Env) (st : St) (f : String) (b : List Nat)
    (m : FileMeta) (fn : String)
    (h1 : env.fileContent f = Except.ok b)
    (h2 : env.fileMeta f = Except.ok m)
    (hfn : m.filename = some fn) (hnz : fn ≠ "") :
    _download_file env st f
      = (Except.ok (pathJoin env.tmpdir fn),
         ⟨fsWrite st.fs (pathJoin env.tmpdir fn) b,
          st.events ++ [Event.download f]⟩) := by
  simp [_download_file, h1, h2, hfn, hnz]

/-- A successful download with an absent or empty metadata filename
    falls back to `<file_id>.bin`. -/
theorem download_fallback_eq (env : Env) (st : St) (f : String)
    (b : List Nat) (m : FileMeta)
    (h1 : env.fileContent f = Except.ok b)
    (h2 : env.fileMeta f = Except.ok m)
    (hfn : m.filename = none ∨ m.filename = some "") :
    _download_file env st f
      = (Except.ok (pathJoin env.tmpdir (f ++ ".bin")),
         ⟨fsWrite st.fs (pathJoin env.tmpdir (f ++ ".bin")) b,
          st.events ++ [Event.download f]⟩) := by
  cases hfn with
  | inl h => simp [_download_file, h1, h2, h]
  | inr h => simp [_download_file, h1, h2, h]

/-- Reading a path just written returns the new payload. -/
theorem fsRead_fsWrite (fs : List (String × List Nat)) (p : String)
    (b : List Nat) : fsRead (fsWrite fs p b) p = some b := by
  simp [fsRead, fsWrite]

/-- C9 (amended): `_download_file` writes the payload to the join of the
    temp directory and the metadata filename, falling back to
    `<file_id>.bin` when the filename is absent *or empty* (Python
    `meta.filename or ...`); consequently two distinct file ids with the
    same non-empty metadata filename resolve to the same local path and
    the later write overwrites the earlier payload. -/
theorem c9_amended (env : Env) :
    (∀ (st : St) (f : String) (b : List Nat) (m : FileMeta) (fn : String),
      env.fileContent f = Except.ok b → env.fileMeta f = Except.ok m →
      m.filename = some fn → fn ≠ "" →
      (_download_file env st f).1 = Except.ok (pathJoin env.tmpdir fn) ∧
      fsRead (_download_file env st f).2.fs (pathJoin env.tmpdir fn)
        = some b) ∧
    (∀ (st : St) (f : String) (b : List Nat) (m : FileMeta),
      env.fileContent f = Except.ok b → env.fileMeta f = Except.ok m →
      (m.filename = none ∨ m.filename = some "") →
      (_download_file env st f).1
        = Except.ok (pathJoin env.tmpdir (f ++ ".bin"))) ∧
    (∀ (st : St) (f1 f2 : String) (b1 b2 : List Nat) (m1 m2 : FileMeta)
        (fn : String),
      f1 ≠ f2 →
      env.fileContent f1 = Except.ok b1 →
      env.fileContent f2 = Except.ok b2 →
      env.fileMeta f1 = Except.ok m1 → env.fileMeta f2 = Except.ok m2 →
      m1.filename = some fn → m2.filename = some fn → fn ≠ "" →
      (_download_file env st f1).1 = (_download_file env st f2).1 ∧
      fsRead (_download_file env (_download_file env st f1).2 f2).2.fs
        (pathJoin env.tmpdir fn) = some b2) := by
  refine ⟨?_, ?_, ?_⟩
  · intro st f b m fn h1 h2 hfn hnz
    rw [download_ok_eq env st f b m fn h1 h2 hfn hnz]
    exact ⟨rfl, fsRead_fsWrite st.fs (pathJoin env.tmpdir fn) b⟩
  · intro st f b m h1 h2 hfn
    rw [download_fallback_eq env st f b m h1 h2 hfn]
  · intro st f1 f2 b1 b2 m1 m2 fn hne h1 h2 h3 h4 hm1 hm2 hnz
    constructor
    · rw [download_ok_eq env st f1 b1 m1 fn h1 h3 hm1 hnz,
        download_ok_eq env st f2 b2 m2 fn h2 h4 hm2 hnz]
    · rw [download_ok_eq env st f1 b1 m1 fn h1 h3 hm1 hnz]
      rw [download_ok_eq env
        ⟨fsWrite st.fs (pathJoin env.tmpdir fn) b1,
         st.events ++ [Event.download f1]⟩ f2 b2 m2 fn h2 h4 hm2 hnz]
      exact fsRead_fsWrite _ (pathJoin env.tmpdir fn) b2

/-- C9 counterexample: the metadata filename is present (`some ""`), so
    the claim's path would be `pathJoin "/tmp" "" = "/tmp/"`; the code's
    Python-falsiness fallback (`meta.filename or ...`) instead writes to
    `"/tmp/fid.bin"`. -/
theorem c9_counterexample :
    c9Env.fileMeta "fid" = Except.ok ⟨some ""⟩ ∧
    (_download_file c9Env stInit "fid").1 = Except.ok "/tmp/fid.bin" ∧
    pathJoin c9Env.tmpdir "" = "/tmp/" ∧
    ("/tmp/fid.bin" : String) ≠ "/tmp/" := by
  decide

/-- Witness for C9 (amended): downloading `f1` then `f2` resolves both
    to the same path and leaves `f2`'s payload there. -/
theorem c9_amended_witness :
    (_download_file c9wEnv stInit "f1").1
      = (_download_file c9wEnv stInit "f2").1 ∧
    fsRead (_download_file c9wEnv
        (_download_file c9wEnv stInit "f1").2 "f2").2.fs
      (pathJoin c9wEnv.tmpdir "shared.txt") = some [2] :=
  (c9_amended c9wEnv).2.2 stInit "f1" "f2" [1] [2] ⟨some "shared.txt"⟩
    ⟨some "shared.txt"⟩ "shared.txt" (by decide) (by decide) (by decide)
    (by decide) (by decide) rfl rfl (by decide)

theorem dget_detailsDict_id (a : AssistantObj) (fds : List FileDetailEntry) :
    dget (detailsDict a fds) "id" = some (Val.str a.id) := rfl

theorem dget_detailsDict_name (a : AssistantObj)
    (fds : List FileDetailEntry) :
    dget (detailsDict a fds) "name" = some (Val.optStr a.name) := rfl

theorem dget_detailsDict_instructions (a : AssistantObj)
    (fds : List FileDetailEntry) :
    dget (detailsDict a fds) "instructions"
      = some (Val.optStr a.instructions) := rfl

theorem dget_detailsDict_model (a : AssistantObj)
    (fds : List FileDetailEntry) :
    dget (detailsDict a fds) "model" = some (Val.str a.model) := rfl

theorem dget_detailsDict_tools (a : AssistantObj)
    (fds : List FileDetailEntry) :
    dget (detailsDict a fds) "tools" = some (Val.tools a.tools) := rfl

theorem dget_detailsDict_files (a : AssistantObj)
    (fds : List FileDetailEntry) :
    dget (detailsDict a fds) "file_details" = some (Val.files fds) := rfl

/-- C10: `get_assistant_details` returns either the empty dict or a
    dict whose keys are exactly `id`, `name`, `instructions`, `model`,
    `tools`, `file_details` with `id` bound to the retrieved
    assistant's id; and the result is empty exactly when the retrieval
    (the retrieve call or one of the file downloads) failed — so the
    caller's `if not details` test skips an assistant iff its detail
    retrieval failed. -/
theorem c10_details_shape (env : Env) (st : St) (aid : String) :
    ((get_assistant_details env st aid).1 = [] ∨
      ((get_assistant_details env st aid).1.map Prod.fst
          = ["id", "name", "instructions", "model", "tools",
             "file_details"] ∧
        ∃ aobj, env.retrieve aid = Except.ok aobj ∧
          dget (get_assistant_details env st aid).1 "id"
            = some (Val.str aobj.id))) ∧
    ((get_assistant_details env st aid).1 = [] ↔
      ∀ aobj, env.retrieve aid = Except.ok aobj →
        ∃ e, (downloadFiles env st aobj.file_ids).1 = Except.error e) := by
  rw [details_fst]
  cases hr : env.retrieve aid with
  | error e0 =>
    refine ⟨Or.inl (by simp [detailsRes, hr]), ?_, ?_⟩
    · intro h aobj ha
      exact Except.noConfusion ha
    · intro h
      simp [detailsRes, hr]
  | ok a =>
    cases hd : downloadFilesRes env a.file_ids with
    | error e0 =>
      refine ⟨Or.inl (by simp [detailsRes, hr, hd]), ?_, ?_⟩
      · intro h aobj ha
        injection ha with haa
        subst haa
        exact ⟨e0, by rw [downloadFiles_fst]; exact hd⟩
      · intro h
        simp [detailsRes, hr, hd]
    | ok fds =>
      refine ⟨Or.inr ⟨by simp [detailsRes, hr, hd, detailsDict], a, rfl,
        by simp [detailsRes, hr, hd, dget_detailsDict_id]⟩, ?_, ?_⟩
      · intro h
        exfalso
        simp [detailsRes, hr, hd, detailsDict] at h
      · intro h
        exfalso
        obtain ⟨e1, he1⟩ := h a rfl
        rw [downloadFiles_fst, hd] at he1
        cases he1

/-- Witness for C10 at the concrete environment. -/
theorem c10_witness :
    ((get_assistant_details c10Env stInit "a1").1 = [] ∨
      ((get_assistant_details c10Env stInit "a1").1.map Prod.fst
          = ["id", "name", "instructions", "model", "tools",
             "file_details"] ∧
        ∃ aobj, c10Env.retrieve "a1" = Except.ok aobj ∧
          dget (get_assistant_details c10Env stInit "a1").1 "id"
            = some (Val.str aobj.id))) ∧
    ((get_assistant_details c10Env stInit "a1").1 = [] ↔
      ∀ aobj, c10Env.retrieve "a1" = Except.ok aobj →
        ∃ e, (downloadFiles c10Env stInit aobj.file_ids).1
          = Except.error e) :=
  c10_details_shape c10Env stInit "a1"

/-- C8: a retrievable assistant with no attached files yields the
    details dict with an empty `file_details` list, and — provided the
    other steps succeed — its creation adds exactly one `create` event
    carrying the empty destination file-id list: no upload call is
    performed and the assistant is created with an empty file set. -/
theorem c8_zero_files (env : Env) (st1 st2 : St) (aid : String)
    (aobj : AssistantObj) (depIds : List String) (t r : String)
    (hret : env.retrieve aid = Except.ok aobj)
    (hfiles : aobj.file_ids = [])
    (hdep : env.deployments = Except.ok depIds)
    (hres : resolveTargetModel (some aobj.model) depIds = some t)
    (ht : t ≠ "")
    (hcr : env.createAssistant aobj.name aobj.instructions t aobj.tools []
      = Except.ok r) :
    (get_assistant_details env st1 aid).1 = detailsDict aobj [] ∧
    create_azure_assistant env st2 (detailsDict aobj [])
      = (some r,
         { st2 with events := st2.events ++ [Event.create t []] }) := by
  constructor
  · rw [details_fst]
    simp [detailsRes, hret, hfiles, downloadFilesRes]
  · simp [create_azure_assistant, dget_detailsDict_files,
      dget_detailsDict_model, dget_detailsDict_name,
      dget_detailsDict_instructions, dget_detailsDict_tools,
      asFiles, asStr, asTools, uploadLoop, hdep, hres, ht, hcr]

/-- Witness for C8 at the concrete zero-file assistant. -/
theorem c8_witness :
    (get_assistant_details c8wEnv stInit "a1").1 = detailsDict c8wAsst [] ∧
    create_azure_assistant c8wEnv stInit (detailsDict c8wAsst [])
      = (some "d1",
         { stInit with
            events := stInit.events ++ [Event.create "gpt-4" []] }) :=
  c8_zero_files c8wEnv stInit stInit "a1" c8wAsst ["gpt-4"] "gpt-4" "d1"
    (by decide) rfl rfl (by decide) (by decide) (by decide)

/-- C2: for a listing of `N` (distinct) assistants of which exactly `M`
    fail detail retrieval while every remaining step succeeds, the run
    completes and the mapping has exactly `N − M` entries. -/
theorem c2_mapping_size (env : Env) (st : St) (as_ : List AssistantObj)
    (hl : env.listAssistants = Except.ok as_)
    (hnodup : (as_.map (fun a => a.id)).Nodup)
    (hsucc : ∀ a ∈ as_, (get_assistant_details env st a.id).1 ≠ [] →
      truthyOptStr (create_azure_assistant env st
        (get_assistant_details env st a.id).1).1 = true) :
    ∃ (m : List (String × String)) (st' : St),
      migrate_all_assistants env st = Except.ok (m, st') ∧
      m.length = as_.length
        - (as_.filter
            (fun a => (get_assistant_details env st a.id).1.isEmpty)).length
    := by
  refine ⟨(migrateLoop env st [] as_).1, (migrateLoop env st [] as_).2,
    by simp [migrate_all_assistants, hl], ?_⟩
  have hkeys := migrateLoopMap_keys env as_ [] (by simp) hnodup
  have hlen1 : (migrateLoop env st [] as_).1.length
      = (as_.filter (itemSucceeds env)).length := by
    rw [migrateLoop_fst]
    calc (migrateLoopMap env [] as_).length
        = ((migrateLoopMap env [] as_).map Prod.fst).length :=
          (List.length_map _ _).symm
      _ = (as_.filter (itemSucceeds env)).length := by
          rw [hkeys]; simp
  have hcong : as_.filter (itemSucceeds env)
      = as_.filter (fun a =>
          !((get_assistant_details env st a.id).1.isEmpty)) := by
    apply List.filter_congr
    intro a ha
    unfold itemSucceeds
    cases he : (detailsRes env a.id).isEmpty with
    | true => simp [details_fst, he]
    | false =>
      have h1 : (get_assistant_details env st a.id).1 ≠ [] := by
        rw [details_fst]
        intro hh
        rw [hh] at he
        cases he
      have h2 := hsucc a ha h1
      rw [create_fst, details_fst] at h2
      simp [details_fst, he, h2]
  have hsplit := length_filter_split
    (fun a => (get_assistant_details env st a.id).1.isEmpty) as_
  rw [hlen1, hcong]
  omega

/-- Witness for C2: two listed assistants, one failing detail
    retrieval, mapping of size one. -/
theorem c2_witness :
    ∃ (m : List (String × String)) (st' : St),
      migrate_all_assistants c2Env stInit = Except.ok (m, st') ∧
      m.length = 1 := by
  obtain ⟨m, st', hrun, hlen⟩ :=
    c2_mapping_size c2Env stInit c2List rfl (by decide) (by decide)
  refine ⟨m, st', hrun, ?_⟩
  rw [hlen]
  decide

/-- C7: for a listing with pairwise-distinct ids the run completes with
    a mapping whose keys are distinct (each source id maps to at most
    one destination id) and drawn from the listing, and each listed id
    is the subject of exactly one detail-fetch (it is processed exactly
    once).  The state `st` is arbitrary — in particular it may already
    contain the trace and mapping of a previous run, which shows that no
    de-duplication against earlier runs takes place: every id is
    processed exactly once more. -/
theorem c7_at_most_once (env : Env) (st : St) (as_ : List AssistantObj)
    (hl : env.listAssistants = Except.ok as_)
    (hnodup : (as_.map (fun a => a.id)).Nodup) :
    ∃ (m : List (String × String)) (st' : St),
      migrate_all_assistants env st = Except.ok (m, st') ∧
      (m.map Prod.fst).Nodup ∧
      (∀ k ∈ m.map Prod.fst, k ∈ as_.map (fun a => a.id)) ∧
      (∀ a ∈ as_, detailCount a.id st'.events
        = detailCount a.id st.events + 1) := by
  refine ⟨(migrateLoop env st [] as_).1, (migrateLoop env st [] as_).2,
    by simp [migrate_all_assistants, hl], ?_, ?_, ?_⟩
  · rw [migrateLoop_fst, migrateLoopMap_keys env as_ [] (by simp) hnodup]
    simp only [List.map_nil, List.nil_append]
    exact hnodup.sublist ((List.filter_sublist _).map _)
  · rw [migrateLoop_fst, migrateLoopMap_keys env as_ [] (by simp) hnodup]
    intro k hk
    simp only [List.map_nil, List.nil_append, List.mem_map] at hk
    obtain ⟨a, ha, rfl⟩ := hk
    exact List.mem_map_of_mem _ (List.mem_of_mem_filter ha)
  · intro a ha
    rw [migrateLoop_events, detailCount_append,
      migrateLoopTrace_detailCount]
    have h1 : (as_.map (fun a => a.id)).count a.id = 1 :=
      List.count_eq_one_of_mem hnodup (List.mem_map_of_mem _ ha)
    rw [h1]

/-- Witness for C7 at the concrete two-assistant environment. -/
theorem c7_witness :
    ∃ (m : List (String × String)) (st' : St),
      migrate_all_assistants c7Env stInit = Except.ok (m, st') ∧
      (m.map Prod.fst).Nodup ∧
      (∀ k ∈ m.map Prod.fst, k ∈ c7List.map (fun a => a.id)) ∧
      (∀ a ∈ c7List, detailCount a.id st'.events
        = detailCount a.id stInit.events + 1) :=
  c7_at_most_once c7Env stInit c7List rfl (by decide)

end OA2Az
